import Mathlib

/-!
Shallow embedding of the goping repository.

Two source components are modelled:

* `Goping` — the request coordinator of `src/goping.go` (`Start`,
  `NewRequest`): the per-request attempt loop, the response
  classification, and the outstanding-work bookkeeping.
* `Ggping` — the transport / reader / demultiplexer of
  `src/unnamed/part_001` (`coordinator`, `runListener`, `sendMessage`):
  sequence assignment, the ping map (Pending Table), the pong branch,
  and the setup / read-loop failure behaviour.

Time is modelled in integer nanoseconds (Go `time.Time` / `time.Duration`
resolution); `float64` round-trip values are modelled as rationals, with
`Option` marking the `math.NaN()` initial value.
-/

namespace Goping

/-- ICMP message types distinguished by the switch in `Start`
(goping.go lines 153-167).  `other n` stands for any ICMP type value
that is none of the six named ones. -/
inductive ICMPType where
  | echo
  | echoReply
  | destinationUnreachable
  | timeExceeded
  | parameterProblem
  | redirect
  | other (n : Nat)
deriving DecidableEq, Repr

/-- The error values a `Response.Err` can carry (goping.go lines
139, 150, 157-166).  `sendError` stands for the error returned by
`pinger.Ping`. -/
inductive PingError where
  | timeout
  | destinationUnreachable
  | timeExceeded
  | parameterProblem
  | redirect
  | uncategorized
  | sendError (msg : String)
deriving DecidableEq, Repr

/-- `RawResponse` (goping.go lines 47-51).  `rtt = none` models the
`math.NaN()` float; `source = none` models the nil `net.IP`;
`icmpType = none` models the zero `icmp.Message` (nil `Type`). -/
structure RawResponse where
  rtt : Option ℚ
  source : Option String
  icmpType : Option ICMPType
deriving DecidableEq, Repr

/-- `Config` (goping.go lines 18-25).  Durations in nanoseconds. -/
structure Config where
  count : Int
  interval : Int
  timeout : Int
  tos : Int
  ttl : Int
  packetSize : Int
deriving DecidableEq, Repr

/-- `Request` (goping.go lines 28-36); `userData` as an association
list; `sent` is the float64 attempt counter, modelled as a natural
number because the code only ever increments it by 1 from 0. -/
structure Request where
  id : Nat
  host : String
  config : Config
  userData : List (String × String)
  sent : Nat
deriving DecidableEq, Repr

/-- `Response` (goping.go lines 39-44). -/
structure Response where
  request : Request
  seq : Int
  err : Option PingError
  raw : RawResponse
deriving DecidableEq, Repr

/-- The `RawResponse{RTT: math.NaN()}` literal used to initialise every
response (goping.go line 140): `From` and `ICMPMessage` stay at their
zero values. -/
def initialRaw : RawResponse :=
  { rtt := none, source := none, icmpType := none }

/-- The outcome of the `select` that races the timeout timer against the
future channel (goping.go lines 148-168): either the timeout fires
first, or the pinger delivers a raw response first. -/
inductive AttemptEvent where
  | timeout
  | replyDelivered (r : RawResponse)
deriving DecidableEq, Repr

/-- The `switch r.ICMPMessage.Type` of goping.go lines 153-167 applied
to a delivered raw response: `echo` and `echoReply` leave the error nil,
four named types set a named error, everything else (including the zero
message, whose nil type hits `default` in Go) sets the uncategorized
error. -/
def classifyErr : Option ICMPType → Option PingError
  | some .echo => none
  | some .echoReply => none
  | some .destinationUnreachable => some .destinationUnreachable
  | some .timeExceeded => some .timeExceeded
  | some .parameterProblem => some .parameterProblem
  | some .redirect => some .redirect
  | some (.other _) => some .uncategorized
  | none => some .uncategorized

/-- The body of the per-attempt goroutine up to the send on `out`
(goping.go lines 133-172): the response starts as
`{recv, seq, err, RawResponse{RTT: NaN}}`; only when the send error is
nil is the timeout raced against the future, and only a delivered reply
overwrites the raw response. -/
def buildResponse (req : Request) (seq : Int) (sendErr : Option PingError)
    (ev : AttemptEvent) : Response :=
  let resp : Response := { request := req, seq := seq, err := sendErr, raw := initialRaw }
  match sendErr with
  | some _ => resp
  | none =>
    match ev with
    | .timeout => { resp with err := some .timeout }
    | .replyDelivered r => { resp with raw := r, err := classifyErr r.icmpType }

/-- The test deciding whether a job is finished after a response has
been emitted (goping.go line 174):
`recv.Config.Count >= 0 && int(recv.Sent) >= recv.Config.Count`,
with `sent` the already incremented attempt counter. -/
def jobDone (count : Int) (sent : Nat) : Bool :=
  decide (0 ≤ count) && decide (count ≤ (sent : Int))

/-- What the attempt goroutine does after emitting its response
(goping.go lines 174-181): release the outstanding-work unit
(`wg.Done`) when the job is done, otherwise wait out the interval and
dispatch the next attempt (`pin <- recv`); the submission channel being
closed is never consulted here. -/
inductive NextAction where
  | retire
  | dispatchNext
deriving DecidableEq, Repr

/-- The branch taken after the response of attempt number `sent`
(goping.go lines 174-181). -/
def afterResponse (count : Int) (sent : Nat) : NextAction :=
  if jobDone count sent then .retire else .dispatchNext

/-- Responses emitted and attempts dispatched by one job. -/
structure JobOutcome where
  responses : Nat
  attempts : Nat
deriving DecidableEq, Repr

/-- The attempt loop driven by the `pin` channel (goping.go lines
125-182), fuel-bounded: each iteration increments `sent`
(`recv.Sent++`), emits exactly one response, and then either retires or
re-enters with the incremented counter.  `none` means the loop has not
finished within `fuel` attempts (so the outstanding-work unit has not
been released). -/
def attemptLoop (count : Int) : Nat → Nat → Option JobOutcome
  | 0, _ => none
  | fuel + 1, sent =>
    let sent' := sent + 1
    if jobDone count sent' then some ⟨1, 1⟩
    else (attemptLoop count fuel sent').map (fun o => ⟨o.responses + 1, o.attempts + 1⟩)

/-- Handling of one accepted request (goping.go lines 112-122): after
`wg.Add(1)`, a request with `Count == 0` is retired at once
(`wg.Done()`) with no attempt dispatched; any other request enters the
attempt loop.  A `some` result means the job retired, releasing its
outstanding-work unit. -/
def runJob (count : Int) (fuel : Nat) : Option JobOutcome :=
  if count = 0 then some ⟨0, 0⟩ else attemptLoop count fuel 0

/-- Whether the single accepted job has released its outstanding-work
unit by the time `k` attempts have completed: the unit is released only
by the `retire` branch firing at some attempt `j ≤ k` (goping.go lines
174-176). -/
def unitReleasedBy (count : Int) (k : Nat) : Bool :=
  (List.range (k + 1)).any (fun j => jobDone count j)

/-- Whether the response channel has been closed once the submission
channel is closed and `k` attempts of the single accepted job have
completed: `close(out)` runs only after `wg.Wait()` returns (goping.go
lines 184-189), i.e. only once the job has released its unit. -/
def outClosedAfter (count : Int) (k : Nat) : Bool :=
  unitReleasedBy count k

end Goping

namespace Ggping

/-- Two complement wrap of an unbounded integer to a 64-bit signed Go
`int`. -/
def int64wrap (n : Int) : Int :=
  (n + 2 ^ 63) % 2 ^ 64 - 2 ^ 63

/-- The coordinator sequence counter (part_001 lines 62, 91): it starts
at 0 and `seq++` runs once per ping, so the value assigned to the n-th
ping is the 64-bit wrap of n (n counted from 1). -/
def seqAfter (n : Nat) : Int :=
  int64wrap n

/-- An inbound datagram as seen by the pong branch (part_001 lines
127-146): whether `icmp.ParseMessage` succeeds, the parsed message type,
the echo identifier of the body, the sequence number encoded in the
body (`body.Seq`), and the arrival timestamp in nanoseconds stamped by
`runListener` (line 51). -/
structure InboundPacket where
  parseOk : Bool
  icmpType : Goping.ICMPType
  echoId : Int
  echoSeq : Int
  whenNs : Int
deriving DecidableEq, Repr

/-- Coordinator state relevant to demultiplexing: the current value of
the `seq` variable and the set of keys registered in `pingmap`
(part_001 lines 62, 85).  Each key owns the one-shot channel of the
ping that registered it, so a delivery is identified by the key whose
channel receives the packet. -/
structure CoordState where
  seq : Int
  pingmap : List Int
deriving DecidableEq, Repr

/-- One packet through the pong branch of `coordinator` (part_001 lines
127-154): drop on parse failure, drop when the type is not
`ICMPTypeEchoReply`, drop when the echo identifier is not the process
id; otherwise look up the CURRENT value of the `seq` VARIABLE (not the
sequence encoded in the reply body) in `pingmap` and, when an entry
exists, deliver the packet to that key, close its channel and delete
the entry.  Returns the new state and the key whose slot received the
packet, if any. -/
def demuxStep (pid : Int) (st : CoordState) (r : InboundPacket) :
    CoordState × Option Int :=
  if !r.parseOk then (st, none)
  else if r.icmpType ≠ Goping.ICMPType.echoReply then (st, none)
  else if r.echoId ≠ pid then (st, none)
  else if st.seq ∈ st.pingmap then
    ({ st with pingmap := st.pingmap.filter (fun k => k ≠ st.seq) }, some st.seq)
  else (st, none)

/-- State of one attempt in the waiter goroutine of part_001 lines
115-125. -/
inductive AttemptState where
  | sent
  | matched
  | timedOut
deriving DecidableEq, Repr

/-- Events the waiter goroutine could observe: a delivery on its
`pongchan`, or its timeout duration elapsing. -/
inductive WaiterEvent where
  | delivered
  | timeoutElapsed
deriving DecidableEq, Repr

/-- The waiter goroutine transition (part_001 lines 115-125): the
`select` has a single live arm, receiving on `pongchan`; the
`time.After` timeout arm (lines 119-120) is commented out in the
source, so the elapsing of the timeout changes nothing and `timedOut`
is never entered. -/
def waiterStep (s : AttemptState) (ev : WaiterEvent) : AttemptState :=
  match s, ev with
  | .sent, .delivered => .matched
  | .sent, .timeoutElapsed => .sent
  | s, _ => s

/-- An event arriving at the coordinator after a ping is in flight:
an inbound packet, or a timeout timer elapsing for some sequence. -/
inductive Event where
  | inbound (r : InboundPacket)
  | timerFired (seq : Int)
deriving DecidableEq, Repr

/-- Processing of one event against the coordinator state: inbound
packets go through the pong branch; a timer firing has no handler
anywhere in the code (the timeout arm at part_001 lines 119-120 is
commented out), so it leaves the state unchanged and delivers
nothing. -/
def processEvent (pid : Int) (st : CoordState) : Event → CoordState × Option Int
  | .inbound r => demuxStep pid st r
  | .timerFired _ => (st, none)

/-- The primitive effects of the ping branch of `coordinator` together
with `sendMessage`, in program order, for a successful send of sequence
`s` (part_001 lines 89-113 and 168-199). -/
inductive Action where
  | incrementSeq (s : Int)
  | resolveAddr
  | marshalMessage (s : Int)
  | socketWrite (s : Int)
  | makePongChan
  | registerPending (s : Int)
  | spawnWaiter (s : Int)
deriving DecidableEq, Repr

/-- The program-order trace of a successful send of sequence `s`:
`seq++` and `pi.Seq = seq` (lines 91-92); inside `sendMessage`, resolve
(line 171), marshal with the sequence in the body (lines 177-189), and
the socket write (line 196); only after `sendMessage` returns are the
pong channel created (line 110) and the pending entry registered in
`pingmap` (line 113), and then the waiter goroutine is spawned
(line 115). -/
def pingBranchTrace (s : Int) : List Action :=
  [.incrementSeq s, .resolveAddr, .marshalMessage s, .socketWrite s,
   .makePongChan, .registerPending s, .spawnWaiter s]

/-- Whether, after the first `k` actions of the trace have executed,
the echo request for sequence `s` has been written to the socket. -/
def onWireAfter (s : Int) (k : Nat) : Bool :=
  ((pingBranchTrace s).take k).any (fun a => a = .socketWrite s)

/-- Whether, after the first `k` actions of the trace have executed,
`pingmap` holds an entry for sequence `s`. -/
def registeredAfter (s : Int) (k : Nat) : Bool :=
  ((pingBranchTrace s).take k).any (fun a => a = .registerPending s)

/-- The result of starting a component of part_001: either it is
running, or it returned an error to its caller, or the whole process
was terminated (`log.Fatal` calls `os.Exit(1)`). -/
inductive SetupResult where
  | running
  | errorReturn
  | processExit
deriving DecidableEq, Repr

/-- The socket setup of `coordinator` (part_001 lines 64-73, identical
in `runListener` lines 31-41): `net.ListenPacket` failure and
`SetControlMessage` failure each hit `log.Fatal`, which terminates the
process; on success the coordinator runs.  No path returns an error. -/
def coordinatorSetup (listenOk setControlOk : Bool) : SetupResult :=
  if !listenOk then .processExit
  else if !setControlOk then .processExit
  else .running

/-- One iteration of the read loop of `runListener` (part_001 lines
43-48): a failed `p.ReadFrom` hits `log.Fatal`, terminating the
process; a successful read hands the packet on and the loop
continues. -/
def readIteration (readOk : Bool) : SetupResult :=
  if readOk then .running else .processExit

/-- The round-trip value stored in the Pong by the waiter goroutine
(part_001 line 118):
`float64(pi.When.Sub(ri.when)) / float64(time.Millisecond)`, where
`pi.When` is the send timestamp taken just before the socket write
(sendMessage line 195) and `ri.when` is the arrival timestamp
(runListener line 51), both in nanoseconds. -/
def pongRtt (sendNs arrivalNs : Int) : ℚ :=
  ((sendNs - arrivalNs : Int) : ℚ) / 1000000

/-- The error stored in the Pong on a matched reply (part_001 line
118): the `Pong` literal sets only `Rtt`, so `Err` stays nil. -/
def pongErrOnMatch : Option Goping.PingError := none

end Ggping

open Goping Ggping

/-- Characterisation of the job-completion test of goping.go line 174. -/
theorem jobDone_eq_true {count : Int} {sent : Nat} :
    jobDone count sent = true ↔ 0 ≤ count ∧ count ≤ (sent : Int) := by
  simp [jobDone]

/-- A job with negative Count never passes the completion test. -/
theorem jobDone_neg {count : Int} (h : count < 0) (sent : Nat) :
    jobDone count sent = false := by
  simp [jobDone, not_le.mpr h]

/-- With Count a positive natural number N and enough fuel, the attempt
loop started at counter value `sent < N` emits exactly `N - sent`
responses over `N - sent` attempts and then retires. -/
theorem attemptLoop_bounded (N : Nat) :
    ∀ fuel sent : Nat, sent < N → N ≤ sent + fuel →
      attemptLoop (N : Int) fuel sent = some ⟨N - sent, N - sent⟩ := by
  intro fuel
  induction fuel with
  | zero =>
    intro sent h1 h2
    exact ((by omega : False)).elim
  | succ fuel ih =>
    intro sent h1 h2
    by_cases hdone : N ≤ sent + 1
    · have hd : jobDone (N : Int) (sent + 1) = true := by
        refine jobDone_eq_true.mpr ⟨by positivity, ?_⟩
        exact_mod_cast hdone
      have hNs : N - sent = 1 := by omega
      simp [attemptLoop, hd, hNs]
    · have hd : jobDone (N : Int) (sent + 1) = false := by
        rw [Bool.eq_false_iff]
        intro hc
        rcases jobDone_eq_true.mp hc with ⟨_, hle⟩
        exact hdone (by exact_mod_cast hle)
      have hrec := ih (sent + 1) (by omega) (by omega)
      simp [attemptLoop, hd, hrec]
      omega

/-- Claim C1: a submitted request with Count = N ≥ 1 yields exactly N
responses, one per attempt, before its attempt loop ends; a request
with Count = 0 is retired immediately — its outstanding-work unit is
released with zero responses emitted and zero attempts dispatched. -/
theorem c1_count_responses (N fuel : Nat) (hN : 1 ≤ N) (hfuel : N ≤ fuel) :
    runJob (N : Int) fuel = some ⟨N, N⟩ ∧ runJob 0 fuel = some ⟨0, 0⟩ := by
  constructor
  · have hne : (N : Int) ≠ 0 := by exact_mod_cast (by omega : N ≠ 0)
    rw [runJob, if_neg hne]
    simpa using attemptLoop_bounded N fuel 0 (by omega) (by omega)
  · simp [runJob]

/-- Claim C1, witness at N = 3, fuel = 5. -/
theorem c1_count_responses_witness :
    1 ≤ 3 ∧ 3 ≤ 5 ∧
    (runJob ((3 : Nat) : Int) 5 = some ⟨3, 3⟩ ∧ runJob 0 5 = some ⟨0, 0⟩) :=
  ⟨by decide, by decide, c1_count_responses 3 5 (by decide) (by decide)⟩

/-- Claim C2, evaluated at the failing input: attempts with sequence
numbers 1 and 2 are outstanding (2 the most recently issued); a valid
echo reply whose body encodes sequence number 1 arrives; the pong
branch delivers the capture to the slot of entry 2 — the most recently
issued sequence, not the one encoded in the reply — and removes entry
2, leaving entry 1 in place.  When no entry exists for the looked-up
sequence, the packet is dropped with no delivery. -/
theorem c2_demux_ignores_reply_seq :
    demuxStep 7 ⟨2, [1, 2]⟩ ⟨true, Goping.ICMPType.echoReply, 7, 1, 500⟩
        = (⟨2, [1]⟩, some 2) ∧
    demuxStep 7 ⟨3, []⟩ ⟨true, Goping.ICMPType.echoReply, 7, 3, 500⟩
        = (⟨3, []⟩, none) := by
  decide

/-- Claim C3, counterexample: with Count = -1 and the submission sink
closed after 2 attempts have completed, the attempt goroutine
dispatches a further attempt and the response channel is not closed,
contrary to the claim. -/
theorem c3_counterexample :
    afterResponse (-1) 2 = NextAction.dispatchNext ∧
    outClosedAfter (-1) 2 = false := by
  decide

/-- Claim C3 as amended: closing the submission sink does not stop a
request with negative Count: after any number of completed attempts
the next attempt is still dispatched (the continuation never consults
the sink state), the outstanding-work unit is never released, the
response channel is never closed, and the attempt loop never
terminates within any fuel bound. -/
theorem c3_unbounded_runs_on (count : Int) (h : count < 0) (k fuel sent : Nat) :
    afterResponse count k = NextAction.dispatchNext ∧
    outClosedAfter count k = false ∧
    attemptLoop count fuel sent = none := by
  refine ⟨?_, ?_, ?_⟩
  · simp [afterResponse, jobDone_neg h]
  · simp [outClosedAfter, unitReleasedBy, jobDone_neg h]
  · induction fuel generalizing sent with
    | zero => rfl
    | succ fuel ih => simp [attemptLoop, jobDone_neg h, ih]

/-- Claim C3 amended, witness at count = -1, k = 2, fuel = 3. -/
theorem c3_unbounded_runs_on_witness :
    (-1 : Int) < 0 ∧
    (afterResponse (-1) 2 = NextAction.dispatchNext ∧
     outClosedAfter (-1) 2 = false ∧
     attemptLoop (-1) 3 0 = none) :=
  ⟨by decide, c3_unbounded_runs_on (-1) (by decide) 2 3 0⟩

/-- Claim C4, evaluated at the failing input: an attempt with sequence
number 5 is outstanding and its reply never arrives; when the timeout
duration elapses nothing happens — the timeout arm of the waiter
select is commented out in the source — so the pending entry for 5 is
never removed, the attempt stays in state Sent, and the timed-out
state is never entered; only a delivery moves the attempt to
Matched. -/
theorem c4_no_timeout_branch :
    processEvent 7 ⟨5, [5]⟩ (Event.timerFired 5) = (⟨5, [5]⟩, none) ∧
    waiterStep AttemptState.sent WaiterEvent.timeoutElapsed = AttemptState.sent ∧
    waiterStep AttemptState.sent WaiterEvent.timeoutElapsed ≠ AttemptState.timedOut ∧
    waiterStep AttemptState.sent WaiterEvent.delivered = AttemptState.matched := by
  decide

/-- Claim C5: the response error is determined by the attempt outcome —
a send failure is copied into an immediate response untouched by any
later event (no wait for a reply); a timeout gives the Timeout error; a
delivered reply is classified by its ICMP type: Echo and EchoReply give
a nil error, the four named kinds give their named protocol errors, and
any other kind (including an absent type) gives the uncategorized
error. -/
theorem c5_err_classification (req : Goping.Request) (s : Int) (e : PingError)
    (ev : AttemptEvent) (r : Goping.RawResponse) (n : Nat) :
    buildResponse req s (some e) ev
        = { request := req, seq := s, err := some e, raw := initialRaw } ∧
    (buildResponse req s none AttemptEvent.timeout).err = some PingError.timeout ∧
    (buildResponse req s none (AttemptEvent.replyDelivered r)).err
        = classifyErr r.icmpType ∧
    classifyErr (some ICMPType.echo) = none ∧
    classifyErr (some ICMPType.echoReply) = none ∧
    classifyErr (some ICMPType.destinationUnreachable)
        = some PingError.destinationUnreachable ∧
    classifyErr (some ICMPType.timeExceeded) = some PingError.timeExceeded ∧
    classifyErr (some ICMPType.parameterProblem) = some PingError.parameterProblem ∧
    classifyErr (some ICMPType.redirect) = some PingError.redirect ∧
    classifyErr (some (ICMPType.other n)) = some PingError.uncategorized ∧
    classifyErr none = some PingError.uncategorized :=
  ⟨rfl, rfl, rfl, rfl, rfl, rfl, rfl, rfl, rfl, rfl, rfl⟩

/-- Claim C6, counterexample: in the send trace for sequence 1, at the
point just after the socket write (4 actions executed) the echo request
is on the wire while the ping map holds no entry for sequence 1. -/
theorem c6_counterexample :
    onWireAfter 1 4 = true ∧ registeredAfter 1 4 = false := by
  decide

/-- Claim C6 as amended: the pending entry is registered only after the
socket write returns, not before or atomically with it — after the
write (points 4 and 5 of the trace) the request is on the wire with no
pending entry for its sequence; the entry exists from point 6 onward,
before the waiter goroutine is spawned. -/
theorem c6_register_follows_write (s : Int) (k : Nat) :
    onWireAfter s 4 = true ∧ registeredAfter s 4 = false ∧
    onWireAfter s 5 = true ∧ registeredAfter s 5 = false ∧
    onWireAfter s 6 = true ∧ registeredAfter s 6 = true ∧
    onWireAfter s (k + 7) = true ∧ registeredAfter s (k + 7) = true := by
  have hsat : (pingBranchTrace s).take (k + 7) = pingBranchTrace s :=
    List.take_of_length_le (by simp [pingBranchTrace])
  refine ⟨?_, ?_, ?_, ?_, ?_, ?_, ?_, ?_⟩ <;>
    simp [onWireAfter, registeredAfter, pingBranchTrace, hsat]

/-- The sequence counter below the int64 bound is not wrapped. -/
theorem seqAfter_of_lt {j : Nat} (hj : j < 2 ^ 63) : seqAfter j = j := by
  have hj' : (j : Int) < 2 ^ 63 := by exact_mod_cast hj
  have h0 : (0 : Int) ≤ (j : Int) + 2 ^ 63 := by positivity
  have h1 : (j : Int) + 2 ^ 63 < 2 ^ 64 := by
    have hp : (2 : Int) ^ 64 = 2 ^ 63 + 2 ^ 63 := by norm_num
    linarith
  unfold seqAfter int64wrap
  rw [Int.emod_eq_of_lt h0 h1]
  ring

/-- Claim C7, counterexample: the sequence number assigned on the
65536th send is 65536 — the counter does not wrap at the 16-bit wire
range, under which it would have returned to 0. -/
theorem c7_counterexample :
    seqAfter 65536 = 65536 ∧ (65536 : Int) % 2 ^ 16 = 0 ∧
    seqAfter 65536 ≠ (65536 : Int) % 2 ^ 16 := by
  refine ⟨seqAfter_of_lt (by norm_num), by norm_num, ?_⟩
  rw [seqAfter_of_lt (by norm_num)]
  norm_num

/-- Claim C7 as amended: each send increments a 64-bit signed counter
that does not wrap at the 16-bit wire range; within the positive int64
range the assigned sequence numbers are strictly increasing, hence
fresh and pairwise distinct among all concurrently outstanding
attempts. -/
theorem c7_seq_strict_mono (m n : Nat) (hmn : m < n) (hn : n < 2 ^ 63) :
    seqAfter m < seqAfter n ∧ seqAfter m ≠ seqAfter n := by
  have hm : m < 2 ^ 63 := lt_trans hmn hn
  rw [seqAfter_of_lt hm, seqAfter_of_lt hn]
  constructor
  · exact_mod_cast hmn
  · exact_mod_cast Nat.ne_of_lt hmn

/-- Claim C7 amended, witness at m = 3, n = 5. -/
theorem c7_seq_strict_mono_witness :
    3 < 5 ∧ 5 < 2 ^ 63 ∧ (seqAfter 3 < seqAfter 5 ∧ seqAfter 3 ≠ seqAfter 5) :=
  ⟨by norm_num, by norm_num, c7_seq_strict_mono 3 5 (by norm_num) (by norm_num)⟩

/-- Claim C8, counterexample: a failed socket open terminates the
process (log.Fatal), it is not returned as an error from the startup
call; likewise a failed read terminates the process instead of raising
an observable fatal signal. -/
theorem c8_counterexample :
    coordinatorSetup false true = SetupResult.processExit ∧
    coordinatorSetup false true ≠ SetupResult.errorReturn ∧
    readIteration false = SetupResult.processExit ∧
    readIteration false ≠ SetupResult.errorReturn := by
  decide

/-- Claim C8 as amended: failure to open the raw socket, failure to
configure it, and a socket-level read failure after startup each call
log.Fatal and terminate the whole process — no path returns an error
from the startup call or raises a caller-observable fatal signal;
when everything succeeds the component runs. -/
theorem c8_log_fatal_exits (b : Bool) :
    coordinatorSetup false b = SetupResult.processExit ∧
    coordinatorSetup true false = SetupResult.processExit ∧
    readIteration false = SetupResult.processExit ∧
    coordinatorSetup true true = SetupResult.running ∧
    readIteration true = SetupResult.running := by
  cases b <;> decide

/-- Claim C9, evaluated at the failing input: a matching reply arrives
5 ms (5000000 ns) after the send at t = 0; the code stores
Rtt = (send - arrival) / 1 ms = -5, the negation of the round-trip
time d = 5 the claim requires, while Err stays nil. -/
theorem c9_rtt_negated :
    pongRtt 0 5000000 = -5 ∧
    ((5000000 : ℚ) - 0) / 1000000 = 5 ∧
    pongRtt 0 5000000 ≠ ((5000000 : ℚ) - 0) / 1000000 ∧
    pongErrOnMatch = none := by
  refine ⟨?_, by norm_num, ?_, rfl⟩
  · norm_num [pongRtt]
  · norm_num [pongRtt]

/-- Claim C10: for an attempt that ends without a delivered reply — a
send-time failure or a timeout — the raw part of the response is the
initial literal: RTT is the NaN marker and the source address and ICMP
message keep their zero values; only a reply delivered before the
timeout replaces the raw part. -/
theorem c10_raw_untouched (req : Goping.Request) (s : Int) (e : PingError)
    (ev : AttemptEvent) (r : Goping.RawResponse) :
    (buildResponse req s (some e) ev).raw = initialRaw ∧
    (buildResponse req s none AttemptEvent.timeout).raw = initialRaw ∧
    initialRaw.rtt = none ∧ initialRaw.source = none ∧
    initialRaw.icmpType = none ∧
    (buildResponse req s none (AttemptEvent.replyDelivered r)).raw = r :=
  ⟨rfl, rfl, rfl, rfl, rfl, rfl⟩
